import Mathlib

/-!
Shallow embedding of `scripts/whisperx-service.py`, a single-endpoint FastAPI
transcription service, together with proofs of its specified properties.

Numeric times reported by the engine are embedded as exact rationals; Python
`round(x, 3)` is embedded as round-half-to-even at three decimals and
`int(x)` as truncation toward zero.  Python string slicing `s[:n]` is
embedded as `pyTake`, `str.strip()` as `pyStrip` (whitespace removed from
both ends), and an f-string interpolation of an integer as `toString`.  External effects (the `yt-dlp`
subprocess, the filesystem, the speech model, the registry HTTP call) are
supplied by an environment record; observable side effects of a request are
collected in a `Trace`.
-/

namespace Whisperx

set_option maxRecDepth 10000

/-- Python string slicing `s[:n]`: the first `n` characters of `s`. -/
def pyTake (s : String) (n : Nat) : String :=
  ⟨s.data.take n⟩

/-- Python `s.strip()`: remove whitespace from both ends of the string. -/
def pyStrip (s : String) : String :=
  ⟨((s.data.dropWhile Char.isWhitespace).reverse.dropWhile Char.isWhitespace).reverse⟩

/-- Python `int(q)` on a real value: truncation toward zero. -/
def pyInt (q : ℚ) : ℤ :=
  if 0 ≤ q then q.floor else -((-q).floor)

/-- Round-half-to-even to the nearest integer, the tie-breaking rule of
Python `round`. -/
def roundHalfEven (q : ℚ) : ℤ :=
  let n := q.floor
  let frac := q - (n : ℚ)
  if frac < 1/2 then n
  else if 1/2 < frac then n + 1
  else if n % 2 = 0 then n else n + 1

/-- Python `round(q, 3)`: rounding to three decimal places. -/
def pyRound3 (q : ℚ) : ℚ :=
  (roundHalfEven (q * 1000) : ℚ) / 1000

/-- Truthiness of a Python string: `""` is falsy, everything else truthy. -/
def pyTruthyStr (s : String) : Bool :=
  !(s == "")

/-- Truthiness of the result of `os.environ.get`: `None` and `""` are
falsy. -/
def pyTruthyEnv : Option String → Bool
  | none => false
  | some s => pyTruthyStr s

/-- A per-word timestamp record as produced by the engine
(`w.word`, `w.start`). -/
structure Word where
  word : String
  start : ℚ
deriving DecidableEq

/-- A segment as produced by the engine (`s.text`, `s.start`, `s.end`,
`s.words`); `words` is `none` when the engine attached no word data, the
Python value `None`. -/
structure Seg where
  text : String
  start : ℚ
  endT : ℚ
  words : Option (List Word)
deriving DecidableEq

/-- Truthiness of `s.words` in `if s.words:`: falsy when `None` or the
empty list. -/
def pyTruthyWords : Option (List Word) → Bool
  | none => false
  | some l => !l.isEmpty

/-- One entry of the `words` array in the response: `text` holds
`w.word.strip()` and `startMs` holds `int(w.start * 1000)`. -/
structure OutWord where
  text : String
  startMs : ℤ
deriving DecidableEq

/-- One entry of the `segments` array in the response; `words = none` means
the `"words"` key is absent from the JSON object. -/
structure OutSeg where
  text : String
  offset : ℚ
  duration : ℚ
  words : Option (List OutWord)
deriving DecidableEq

/-- Shaping of a single engine word, from the list comprehension at line 72
of the source. -/
def shapeWord (w : Word) : OutWord :=
  { text := pyStrip w.word, startMs := pyInt (w.start * 1000) }

/-- Shaping of a single engine segment (source lines 65–75): trimmed text,
start rounded to 3 decimals, `end - start` rounded to 3 decimals, and, when
the raw word data is truthy, the filtered and shaped word list. -/
def shapeSegment (s : Seg) : OutSeg :=
  { text := pyStrip s.text
    offset := pyRound3 s.start
    duration := pyRound3 (s.endT - s.start)
    words :=
      if pyTruthyWords s.words then
        some (((s.words.getD []).filter (fun w => pyTruthyStr (pyStrip w.word))).map shapeWord)
      else none }

/-- The result of `subprocess.run` with `capture_output=True, text=True`. -/
structure CompletedProcess where
  returncode : ℤ
  stdout : String
  stderr : String
deriving DecidableEq

/-- A raised Python exception as seen by the handler `except` clauses:
either the FastAPI `HTTPException` with status code and detail, or any other
exception carrying its `str(e)`. -/
inductive Exn where
  | http (status : ℕ) (detail : String)
  | py (msg : String)
deriving DecidableEq

/-- The environment of one `/transcribe` request: the outcomes of the
external operations the handler performs.  `runDownloader` is keyed by the
target URL and may itself raise (e.g. `subprocess.TimeoutExpired`);
`globAudio` is the result of globbing `audio.*` in the temp directory;
`getsize` gives the byte size of a file; `engine` is the combined
`get_model(); model.transcribe(...)` call, returning the materialized
segment stream and `info.duration`, or raising. -/
structure Env where
  runDownloader : String → Except String CompletedProcess
  globAudio : List String
  getsize : String → ℕ
  engine : String → Except String (List Seg × ℚ)

/-- The observable side effects of one `/transcribe` request. -/
structure Trace where
  tmpdirCreated : Bool
  downloaderInvoked : Bool
  engineInvoked : Bool
  tmpdirRemoved : Bool
deriving DecidableEq

/-- What the handler hands back to FastAPI: a 200 response carrying the
`segments` list and the total `duration`, or a raised `HTTPException`
rendered with its status code and detail message. -/
inductive HandlerResult where
  | ok (segments : List OutSeg) (duration : ℚ)
  | httpError (status : ℕ) (detail : String)
deriving DecidableEq

/-- The target URL built from the identifier (source line 42). -/
def videoUrl (vid : String) : String :=
  "https://www.youtube.com/watch?v=" ++ vid

/-- Outcome of the `try` block of the handler (source lines 34–78),
together with which external stages were reached. -/
structure TryResult where
  result : Except Exn (List OutSeg × ℚ)
  downloaderInvoked : Bool
  engineInvoked : Bool

/-- The body of the `try` block (source lines 34–78): run `yt-dlp`, check
its exit code, glob for the written file, check its size, then transcribe
and shape the segments. -/
def tryBlock (vid : String) (env : Env) : TryResult :=
  match env.runDownloader (videoUrl vid) with
  | .error m => ⟨.error (.py m), true, false⟩
  | .ok r =>
    if r.returncode ≠ 0 then
      ⟨.error (.http 502 ("Audio download failed: " ++ pyTake r.stderr 300)), true, false⟩
    else
      match env.globAudio with
      | [] => ⟨.error (.http 502 ("No audio file found. stdout: " ++ pyTake r.stdout 200)), true, false⟩
      | audioPath :: _ =>
        let fsize := env.getsize audioPath
        if fsize < 1000 then
          ⟨.error (.http 502 ("Audio too small (" ++ toString fsize ++ " bytes)")), true, false⟩
        else
          match env.engine audioPath with
          | .error m => ⟨.error (.py m), true, true⟩
          | .ok (segs, dur) => ⟨.ok (segs.map shapeSegment, dur), true, true⟩

/-- The `/transcribe` handler (source lines 26–84): validate the
identifier, create the temp directory, run the `try` block, re-raise
`HTTPException` unchanged, convert any other exception to a 500 with its
`str(e)`, and remove the temp directory in the `finally` block. -/
def transcribe (vid : String) (env : Env) : HandlerResult × Trace :=
  if vid = "" ∨ vid.length ≠ 11 then
    (.httpError 400 "Invalid video_id", ⟨false, false, false, false⟩)
  else
    (match (tryBlock vid env).result with
      | .ok (segs, dur) => .ok segs dur
      | .error (.http s d) => .httpError s d
      | .error (.py m) => .httpError 500 m,
      ⟨true, (tryBlock vid env).downloaderInvoked, (tryBlock vid env).engineInvoked, true⟩)

/-- Outcome of the startup registration (source lines 93–125). -/
inductive RegOutcome where
  | skipped
  | registered
  | failedLogged (msg : String)
deriving DecidableEq

/-- Environment of `register_service`: the two environment variables and
the outcome of the `urlopen` POST to the registry. -/
structure RegEnv where
  supabaseUrl : Option String
  serviceKey : Option String
  post : Except String Unit

/-- The function `register_service` (source lines 93–125): skip when either credential
is falsy; otherwise POST to the registry, catching any exception.  The
returned `Bool` records whether the registry was contacted; the `Except`
layer is the exception channel to the caller, which this function never
uses. -/
def register_service (renv : RegEnv) : Except String (RegOutcome × Bool) :=
  if !(pyTruthyEnv renv.supabaseUrl) || !(pyTruthyEnv renv.serviceKey) then
    .ok (.skipped, false)
  else
    match renv.post with
    | .ok _ => .ok (.registered, true)
    | .error m => .ok (.failedLogged m, true)

/-- The `startup` event handler (source lines 128–131): warm up the model,
then run `register_service`. -/
def startup (modelLoad : Except String Unit) (renv : RegEnv) :
    Except String (RegOutcome × Bool) :=
  match modelLoad with
  | .error m => .error m
  | .ok _ => register_service renv

/-- An environment in which no external operation is ever consulted
successfully; used to exercise paths that must not reach them. -/
def envNull : Env :=
  { runDownloader := fun _ => .error "unused"
    globAudio := []
    getsize := fun _ => 0
    engine := fun _ => .error "unused" }

/-- The slice `pyTake s n` has at most `n` characters. -/
theorem pyTake_length_le (s : String) (n : ℕ) : (pyTake s n).length ≤ n := by
  show (s.data.take n).length ≤ n
  rw [List.length_take]
  exact min_le_left n s.data.length

/-- The slice `pyTake s n` is a prefix of `s`. -/
theorem pyTake_append (s : String) (n : ℕ) : ∃ rest, s = pyTake s n ++ rest := by
  refine ⟨⟨s.data.drop n⟩, ?_⟩
  cases s with
  | mk data =>
    show String.mk data = ⟨data.take n ++ data.drop n⟩
    rw [List.take_append_drop]

/-- A completed downloader process that succeeded. -/
def dlOk : CompletedProcess := ⟨0, "downloaded", "warnings"⟩

/-- A completed downloader process that failed. -/
def dlFail : CompletedProcess := ⟨1, "", "ERROR: video unavailable"⟩

/-- A sample engine segment with one real word and one blank word. -/
def sampleSeg : Seg :=
  ⟨" Hello world ", 0, 1234/1000, some [⟨"Hello ", 0⟩, ⟨" ", 1/2⟩]⟩

/-- An environment in which every stage of the pipeline succeeds. -/
def envSuccess : Env :=
  { runDownloader := fun _ => .ok dlOk
    globAudio := ["audio.webm"]
    getsize := fun _ => 50000
    engine := fun _ => .ok ([sampleSeg], 605/10) }

/-- An environment in which the downloader exits non-zero. -/
def envDlFail : Env :=
  { runDownloader := fun _ => .ok dlFail
    globAudio := []
    getsize := fun _ => 0
    engine := fun _ => .error "unused" }

/-- An environment in which the downloaded file is undersized. -/
def envSmall : Env :=
  { runDownloader := fun _ => .ok dlOk
    globAudio := ["audio.m4a"]
    getsize := fun _ => 12
    engine := fun _ => .error "unused" }

/-- An environment in which the engine raises an unclassified exception. -/
def envEngineFail : Env :=
  { runDownloader := fun _ => .ok dlOk
    globAudio := ["audio.webm"]
    getsize := fun _ => 2000
    engine := fun _ => .error "CUDA error: out of memory" }

/-- A length-11 identifier implies the validation guard is not taken. -/
theorem valid_id_guard (vid : String) (hv : vid.length = 11) :
    ¬(vid = "" ∨ vid.length ≠ 11) := by
  rintro (rfl | h)
  · exact absurd hv (by decide)
  · exact h hv

/-- Claim C1: a request whose `video_id` is not exactly 11 characters long
(including the empty string) fails with HTTP 400 and the fixed message
`Invalid video_id`, and no temp directory is created, no downloader
subprocess is invoked, and no transcription occurs. -/
theorem transcribe_rejects_bad_id (vid : String) (env : Env) (h : vid.length ≠ 11) :
    transcribe vid env =
      (.httpError 400 "Invalid video_id", ⟨false, false, false, false⟩) := by
  unfold transcribe
  rw [if_pos (Or.inr h)]

/-- Witness for C1 at the empty identifier. -/
theorem transcribe_rejects_bad_id_witness :
    "".length ≠ 11 ∧
      transcribe "" envNull =
        (.httpError 400 "Invalid video_id", ⟨false, false, false, false⟩) :=
  ⟨by decide, transcribe_rejects_bad_id "" envNull (by decide)⟩

/-- Claim C2: on every exit path of the handler, the temp directory is
removed exactly when it was created; in particular a created temp directory
no longer exists when the handler returns. -/
theorem transcribe_tmpdir_removed_iff_created (vid : String) (env : Env) :
    (transcribe vid env).2.tmpdirRemoved = (transcribe vid env).2.tmpdirCreated := by
  unfold transcribe
  by_cases h : vid = "" ∨ vid.length ≠ 11
  · rw [if_pos h]
  · rw [if_neg h]

/-- Claim C4: every word in the `words` list of an output segment has non-empty
text equal to the stripped source word and `startMs` equal to the integer
truncation of its start time times 1000, and the output word count never
exceeds the raw word count. -/
theorem shapeSegment_words_spec (s : Seg) (outWords : List OutWord)
    (h : (shapeSegment s).words = some outWords) :
    outWords.length ≤ (s.words.getD []).length ∧
      ∀ ow ∈ outWords, ow.text ≠ "" ∧
        ∃ w ∈ s.words.getD [],
          ow.text = pyStrip w.word ∧ ow.startMs = pyInt (w.start * 1000) := by
  simp only [shapeSegment] at h
  by_cases ht : pyTruthyWords s.words
  · rw [if_pos ht] at h
    obtain rfl : _ = outWords := Option.some.injEq .. ▸ h
    constructor
    · calc (((s.words.getD []).filter _).map shapeWord).length
          = ((s.words.getD []).filter _).length := List.length_map _ _
        _ ≤ (s.words.getD []).length := List.length_filter_le _ _
    · intro ow how
      obtain ⟨w, hw, rfl⟩ := List.mem_map.mp how
      obtain ⟨hmem, hp⟩ := List.mem_filter.mp hw
      have hne : pyStrip w.word ≠ "" := by
        simpa [pyTruthyStr] using hp
      exact ⟨hne, w, hmem, rfl, rfl⟩
  · rw [if_neg ht] at h
    cases h

/-- Witness for C4 on a segment whose raw words are `"Hello "` at 0s and a
blank word at 0.5s: the blank word is dropped. -/
theorem shapeSegment_words_spec_witness :
    (shapeSegment ⟨" Hello world ", 0, 1234/1000,
        some [⟨"Hello ", 0⟩, ⟨" ", 1/2⟩]⟩).words = some [⟨"Hello", 0⟩] ∧
      ([⟨"Hello", 0⟩] : List OutWord).length ≤ 2 ∧
      ∀ ow ∈ ([⟨"Hello", 0⟩] : List OutWord), ow.text ≠ "" ∧
        ∃ w ∈ [(⟨"Hello ", 0⟩ : Word), ⟨" ", 1/2⟩],
          ow.text = pyStrip w.word ∧ ow.startMs = pyInt (w.start * 1000) :=
  ⟨by with_unfolding_all decide,
    shapeSegment_words_spec ⟨" Hello world ", 0, 1234/1000,
      some [⟨"Hello ", 0⟩, ⟨" ", 1/2⟩]⟩ [⟨"Hello", 0⟩] (by with_unfolding_all decide)⟩

/-- Claim C10: the presence of the `words` key is decided by the raw word
data: raw word data that is absent (or an empty list) omits the key, while
a non-empty raw word list all of whose words strip to empty yields the key
with an empty list as its value. -/
theorem shapeSegment_words_key_presence (s : Seg) :
    (s.words = none → (shapeSegment s).words = none) ∧
      (s.words = some [] → (shapeSegment s).words = none) ∧
      (∀ l, s.words = some l → l ≠ [] → (∀ w ∈ l, pyStrip w.word = "") →
        (shapeSegment s).words = some []) := by
  refine ⟨fun h => ?_, fun h => ?_, fun l hl hne hall => ?_⟩
  · simp [shapeSegment, pyTruthyWords, h]
  · simp [shapeSegment, pyTruthyWords, h]
  · have ht : pyTruthyWords (some l) = true := by
      simp [pyTruthyWords, List.isEmpty_iff, hne]
    simp only [shapeSegment, hl, Option.getD_some]
    rw [if_pos ht]
    rw [List.filter_eq_nil_iff.mpr ?_]
    · rfl
    · intro w hw
      simp [pyTruthyStr, hall w hw]

/-- Witness for C10 on a segment with one all-whitespace raw word and on a
segment with no raw word data. -/
theorem shapeSegment_words_key_presence_witness :
    (shapeSegment ⟨"hi", 0, 1, none⟩).words = none ∧
      (shapeSegment ⟨"hi", 0, 1, some [⟨"  ", 0⟩]⟩).words = some [] :=
  ⟨(shapeSegment_words_key_presence ⟨"hi", 0, 1, none⟩).1 rfl,
    (shapeSegment_words_key_presence ⟨"hi", 0, 1, some [⟨"  ", 0⟩]⟩).2.2
      [⟨"  ", 0⟩] rfl (by decide) (by decide)⟩

/-- Claim C5: when the downloader exits non-zero, the handler responds 502
with a message carrying at most the first 300 characters of stderr (a
prefix of the stderr stream), and the engine is never invoked. -/
theorem transcribe_downloader_nonzero (vid : String) (env : Env) (r : CompletedProcess)
    (hv : vid.length = 11)
    (hr : env.runDownloader (videoUrl vid) = .ok r)
    (hrc : r.returncode ≠ 0) :
    transcribe vid env =
        (.httpError 502 ("Audio download failed: " ++ pyTake r.stderr 300),
          ⟨true, true, false, true⟩) ∧
      (pyTake r.stderr 300).length ≤ 300 ∧
      ∃ rest, r.stderr = pyTake r.stderr 300 ++ rest := by
  refine ⟨?_, pyTake_length_le r.stderr 300, pyTake_append r.stderr 300⟩
  simp [transcribe, tryBlock, valid_id_guard vid hv, hr, hrc]

/-- Witness for C5 with a downloader that exits 1. -/
theorem transcribe_downloader_nonzero_witness :
    transcribe "dQw4w9WgXcQ" envDlFail =
        (.httpError 502 ("Audio download failed: " ++ pyTake dlFail.stderr 300),
          ⟨true, true, false, true⟩) ∧
      (pyTake dlFail.stderr 300).length ≤ 300 ∧
      ∃ rest, dlFail.stderr = pyTake dlFail.stderr 300 ++ rest :=
  transcribe_downloader_nonzero "dQw4w9WgXcQ" envDlFail dlFail
    (by decide) rfl (by decide)

/-- Claim C6: when the downloaded file is smaller than 1000 bytes, the
handler responds 502 with a message mentioning the byte count, and the
engine is never invoked. -/
theorem transcribe_undersized_audio (vid : String) (env : Env) (r : CompletedProcess)
    (audioPath : String) (rest : List String)
    (hv : vid.length = 11)
    (hr : env.runDownloader (videoUrl vid) = .ok r)
    (hrc : r.returncode = 0)
    (hg : env.globAudio = audioPath :: rest)
    (hs : env.getsize audioPath < 1000) :
    transcribe vid env =
        (.httpError 502
          ("Audio too small (" ++ toString (env.getsize audioPath) ++ " bytes)"),
          ⟨true, true, false, true⟩) ∧
      ∃ a b, ("Audio too small (" ++ toString (env.getsize audioPath) ++ " bytes)")
          = a ++ toString (env.getsize audioPath) ++ b := by
  refine ⟨?_, "Audio too small (", " bytes)", rfl⟩
  simp [transcribe, tryBlock, valid_id_guard vid hv, hr, hrc, hg, hs]

/-- Witness for C6 with a 12-byte downloaded file. -/
theorem transcribe_undersized_audio_witness :
    transcribe "dQw4w9WgXcQ" envSmall =
        (.httpError 502
          ("Audio too small (" ++ toString (envSmall.getsize "audio.m4a") ++ " bytes)"),
          ⟨true, true, false, true⟩) ∧
      ∃ a b, ("Audio too small (" ++ toString (envSmall.getsize "audio.m4a") ++ " bytes)")
          = a ++ toString (envSmall.getsize "audio.m4a") ++ b :=
  transcribe_undersized_audio "dQw4w9WgXcQ" envSmall dlOk "audio.m4a" []
    (by decide) rfl rfl rfl (by decide)

/-- Claim C7: an exception raised inside the pipeline maps to the response
by its kind: pipeline-raised `HTTPException` values pass through with status
and message unchanged; any other exception becomes a 500 carrying its
string representation. -/
theorem transcribe_exception_to_status (vid : String) (env : Env) (e : Exn)
    (hv : vid.length = 11)
    (he : (tryBlock vid env).result = .error e) :
    (transcribe vid env).1 =
      (match e with
        | .http s d => .httpError s d
        | .py m => .httpError 500 m) := by
  cases e with
  | http s d => simp [transcribe, valid_id_guard vid hv, he]
  | py m => simp [transcribe, valid_id_guard vid hv, he]

/-- Witness for C7 with an engine that raises a CUDA error. -/
theorem transcribe_exception_to_status_witness :
    (transcribe "dQw4w9WgXcQ" envEngineFail).1 =
      .httpError 500 "CUDA error: out of memory" :=
  transcribe_exception_to_status "dQw4w9WgXcQ" envEngineFail
    (.py "CUDA error: out of memory") (by decide) (by with_unfolding_all rfl)

/-- Claim C8: on a successful run the handler returns the shaped segments
in engine order together with the engine-reported duration, unchanged. -/
theorem transcribe_success_response (vid : String) (env : Env) (r : CompletedProcess)
    (audioPath : String) (rest : List String) (raw : List Seg) (dur : ℚ)
    (hv : vid.length = 11)
    (hr : env.runDownloader (videoUrl vid) = .ok r)
    (hrc : r.returncode = 0)
    (hg : env.globAudio = audioPath :: rest)
    (hs : ¬env.getsize audioPath < 1000)
    (he : env.engine audioPath = .ok (raw, dur)) :
    transcribe vid env = (.ok (raw.map shapeSegment) dur, ⟨true, true, true, true⟩) := by
  simp [transcribe, tryBlock, valid_id_guard vid hv, hr, hrc, hg, hs, he]

/-- Witness for C8 on a fully successful environment. -/
theorem transcribe_success_response_witness :
    transcribe "dQw4w9WgXcQ" envSuccess =
      (.ok ([sampleSeg].map shapeSegment) (605/10), ⟨true, true, true, true⟩) :=
  transcribe_success_response "dQw4w9WgXcQ" envSuccess dlOk "audio.webm" [] [sampleSeg]
    (605/10) (by decide) rfl rfl rfl (by decide) rfl

/-- Inversion of a successful `tryBlock`: the produced segments are the
shaped engine segments and the duration is the one the engine reported. -/
theorem tryBlock_ok_inv (vid : String) (env : Env) (segs : List OutSeg) (dur : ℚ)
    (h : (tryBlock vid env).result = .ok (segs, dur)) :
    ∃ audioPath raw, env.engine audioPath = .ok (raw, dur) ∧
      segs = raw.map shapeSegment := by
  unfold tryBlock at h
  cases hd : env.runDownloader (videoUrl vid) with
  | error m => rw [hd] at h; simp at h
  | ok r =>
    rw [hd] at h
    by_cases hrc : r.returncode ≠ 0
    · simp [hrc] at h
    · cases hg : env.globAudio with
      | nil => simp [hrc, hg] at h
      | cons p ps =>
        by_cases hs : env.getsize p < 1000
        · simp [hrc, hg, hs] at h
        · cases hecase : env.engine p with
          | error m => simp [hrc, hg, hs, hecase] at h
          | ok pr =>
            obtain ⟨raw, dur0⟩ := pr
            simp [hrc, hg, hs, hecase] at h
            exact ⟨p, raw, by rw [hecase, h.2], h.1.symm⟩

/-- The segment at position `i` of the shaped list is the shaping of the
engine segment at position `i`. -/
theorem get_map_shapeSegment (raw : List Seg) (i : Fin raw.length) :
    (raw.map shapeSegment).get (i.cast (by simp)) = shapeSegment (raw.get i) := by
  simp

/-- Claim C3: when the engine actually produces the segment list `raw` (and
the rest of the pipeline succeeds), the handler responds with exactly the
shaped versions of those segments, and for every engine segment the output
segment at the same position has the stripped engine text, the start time
rounded to 3 decimals as offset, and `end - start` rounded to 3 decimals as
duration. -/
theorem transcribe_success_segment_fields (vid : String) (env : Env)
    (r : CompletedProcess) (audioPath : String) (rest : List String)
    (raw : List Seg) (dur : ℚ)
    (hv : vid.length = 11)
    (hr : env.runDownloader (videoUrl vid) = .ok r)
    (hrc : r.returncode = 0)
    (hg : env.globAudio = audioPath :: rest)
    (hs : ¬env.getsize audioPath < 1000)
    (he : env.engine audioPath = .ok (raw, dur)) :
    (transcribe vid env).1 = .ok (raw.map shapeSegment) dur ∧
      ∀ i : Fin raw.length,
        ((raw.map shapeSegment).get (i.cast (by simp))).text
            = pyStrip (raw.get i).text ∧
        ((raw.map shapeSegment).get (i.cast (by simp))).offset
            = pyRound3 (raw.get i).start ∧
        ((raw.map shapeSegment).get (i.cast (by simp))).duration
            = pyRound3 ((raw.get i).endT - (raw.get i).start) := by
  constructor
  · simp [transcribe, tryBlock, valid_id_guard vid hv, hr, hrc, hg, hs, he]
  · intro i
    rw [get_map_shapeSegment raw i]
    exact ⟨rfl, rfl, rfl⟩

/-- Witness for C3 on a fully successful environment whose engine emits one
segment. -/
theorem transcribe_success_segment_fields_witness :
    (transcribe "dQw4w9WgXcQ" envSuccess).1
        = .ok ([sampleSeg].map shapeSegment) (605/10) ∧
      ∀ i : Fin [sampleSeg].length,
        (([sampleSeg].map shapeSegment).get (i.cast (by simp))).text
            = pyStrip ([sampleSeg].get i).text ∧
        (([sampleSeg].map shapeSegment).get (i.cast (by simp))).offset
            = pyRound3 ([sampleSeg].get i).start ∧
        (([sampleSeg].map shapeSegment).get (i.cast (by simp))).duration
            = pyRound3 (([sampleSeg].get i).endT - ([sampleSeg].get i).start) :=
  transcribe_success_segment_fields "dQw4w9WgXcQ" envSuccess dlOk "audio.webm" []
    [sampleSeg] (605/10) (by decide) rfl rfl rfl (by decide) rfl

/-- Claim C9: the startup registration is best-effort: it never raises to
its caller; with either credential falsy it skips without contacting the
registry; a failing registry call is caught; and startup succeeds whenever
the model warm-up does, regardless of the registration outcome. -/
theorem register_service_best_effort (renv : RegEnv) :
    (∃ res, register_service renv = .ok res) ∧
      ((pyTruthyEnv renv.supabaseUrl = false ∨ pyTruthyEnv renv.serviceKey = false) →
        register_service renv = .ok (.skipped, false)) ∧
      (∀ m, pyTruthyEnv renv.supabaseUrl = true → pyTruthyEnv renv.serviceKey = true →
        renv.post = .error m →
        register_service renv = .ok (.failedLogged m, true)) ∧
      (∃ res, startup (.ok ()) renv = .ok res) := by
  refine ⟨?_, fun hf => ?_, fun m hu hk hp => ?_, ?_⟩
  · unfold register_service
    by_cases hc : !(pyTruthyEnv renv.supabaseUrl) || !(pyTruthyEnv renv.serviceKey)
    · exact ⟨(.skipped, false), by rw [if_pos hc]⟩
    · rw [if_neg hc]
      cases hp : renv.post with
      | ok u => exact ⟨(.registered, true), rfl⟩
      | error m => exact ⟨(.failedLogged m, true), rfl⟩
  · unfold register_service
    rw [if_pos]
    rcases hf with hf | hf <;> simp [hf]
  · unfold register_service
    rw [if_neg, hp]
    simp [hu, hk]
  · show (∃ res, register_service renv = .ok res)
    unfold register_service
    by_cases hc : !(pyTruthyEnv renv.supabaseUrl) || !(pyTruthyEnv renv.serviceKey)
    · exact ⟨(.skipped, false), by rw [if_pos hc]⟩
    · rw [if_neg hc]
      cases hp : renv.post with
      | ok u => exact ⟨(.registered, true), rfl⟩
      | error m => exact ⟨(.failedLogged m, true), rfl⟩

/-- Witness for C9 with missing credentials and with a failing registry
call. -/
theorem register_service_best_effort_witness :
    register_service ⟨none, some "k", .error "connection refused"⟩
        = .ok (.skipped, false) ∧
      register_service ⟨some "https://x.supabase.co", some "k", .error "connection refused"⟩
        = .ok (.failedLogged "connection refused", true) :=
  ⟨(register_service_best_effort ⟨none, some "k", .error "connection refused"⟩).2.1
      (Or.inl (by decide)),
    (register_service_best_effort
        ⟨some "https://x.supabase.co", some "k", .error "connection refused"⟩).2.2.1
      "connection refused" (by decide) (by decide) rfl⟩

end Whisperx
